import Mathlib

/-!
Verification development for `tools/llm_api.py`.

Shallow embedding conventions:
* Machine strings are Lean `String`s; file bytes are `List Nat` (each byte `< 256`).
* `os.environ` and parsed `.env` files are association lists `List (String × String)`
  where `List.lookup` finds the first binding, matching "first set wins".
* `python-dotenv`'s `load_dotenv(path)` is called with its default `override=False`:
  keys already present in the process environment are not overwritten.  The
  parsing of a dotenv file into key/value pairs is the external library's job,
  so a file enters the model already parsed.
* Python `Optional[str]` is `Option String`; Python truthiness of such a value
  (`if api_key:`, `if image_path:`, `if response:`) is `pyTruthy`.
* The OpenAI transport (`client.chat.completions.create`) is an external
  collaborator and is a parameter `Kwargs → Except String ChatResponse`;
  `Except.error` stands for a raised exception.
* Python exceptions are `Except` / explicit `QueryResult.raised`; a value that
  escapes `query_llm` uncaught is `QueryResult.raised`.
-/

/-! ## Config Loader (`load_environment`, lines 13–45) -/

/-- The process environment / a parsed dotenv file: ordered key–value bindings,
first binding for a key wins on lookup. -/
abbrev EnvMap := List (String × String)

/-- `os.environ.setdefault`-style write used by `load_dotenv` with
`override=False`: a key already present is left untouched, a new key is
appended. -/
def setIfAbsent (env : EnvMap) (k v : String) : EnvMap :=
  if (env.lookup k).isSome then env else env ++ [(k, v)]

/-- `load_dotenv(dotenv_path=env_path)` with the default `override=False`:
every binding of the file is written with do-not-override semantics. -/
def load_dotenv (env : EnvMap) (file : EnvMap) : EnvMap :=
  file.foldl (fun e kv => setIfAbsent e kv.1 kv.2) env

/-- The three candidate files of `load_environment`, in the order the source
lists them: `.env.local`, `.env`, `.env.example`; `none` means the file does
not exist (the `env_path.exists()` check fails). -/
structure EnvFiles where
  envLocal : Option EnvMap
  envDefault : Option EnvMap
  envExample : Option EnvMap

/-- One iteration of the `for env_file in env_files` loop: load the file if it
exists, otherwise leave the environment unchanged. -/
def loadIfExists (env : EnvMap) (f : Option EnvMap) : EnvMap :=
  match f with
  | some file => load_dotenv env file
  | none => env

/-- `load_environment` (lines 13–45): starting from the pre-existing system
environment, process `.env.local`, `.env`, `.env.example` in that order. -/
def load_environment (sysEnv : EnvMap) (files : EnvFiles) : EnvMap :=
  loadIfExists (loadIfExists (loadIfExists sysEnv files.envLocal) files.envDefault) files.envExample

/-- The whitespace characters removed by Python's `str.strip()` (the ASCII
ones; the Unicode whitespace Python also strips does not occur in the
claims). -/
def pyIsSpace (c : Char) : Bool :=
  c == ' ' || c == '\t' || c == '\n' || c == '\r' || c == '\x0b' || c == '\x0c'

/-- Python `s.strip()`: drop leading and trailing whitespace. -/
def pyStrip (s : String) : String :=
  String.mk (((s.toList.dropWhile pyIsSpace).reverse.dropWhile pyIsSpace).reverse)

/-- Python `line.split('=')[0]`: the text before the first `'='` (the whole
line when it has no `'='`). -/
def beforeFirstEq (l : String) : String :=
  String.mk (l.toList.takeWhile (fun c => c != '='))

/-- Python `line.startswith('#')`. -/
def startsWithHash (l : String) : Bool :=
  match l.toList with
  | c :: _ => c == '#'
  | [] => false

/-- The diagnostic key extraction of line 37:
`[line.split('=')[0].strip() for line in f if '=' in line and not line.startswith('#')]`,
modelled over the file's lines. -/
def extract_env_keys : List String → List String
  | [] => []
  | l :: ls =>
      if l.toList.contains '=' && !startsWithHash l then
        pyStrip (beforeFirstEq l) :: extract_env_keys ls
      else
        extract_env_keys ls

/-! ## Media Encoder (`encode_image_file`, lines 47–64) -/

/-- The standard base64 alphabet used by `base64.b64encode`. -/
def b64chars : List Char :=
  "ABCDEFGHIJKLMNOPQRSTUVWXYZabcdefghijklmnopqrstuvwxyz0123456789+/".toList

/-- The base64 digit for a 6-bit value. -/
def b64char (n : Nat) : Char := b64chars.getD n 'A'

/-- RFC 4648 base64 over a byte list, including `=` padding, as
`base64.b64encode` produces. -/
def b64encodeChunks : List Nat → List Char
  | b1 :: b2 :: b3 :: rest =>
      let n := b1 * 65536 + b2 * 256 + b3
      b64char (n / 262144) :: b64char (n / 4096 % 64) :: b64char (n / 64 % 64) ::
        b64char (n % 64) :: b64encodeChunks rest
  | [b1, b2] =>
      let n := b1 * 1024 + b2 * 4
      [b64char (n / 4096), b64char (n / 64 % 64), b64char (n % 64), '=']
  | [b1] =>
      let n := b1 * 16
      [b64char (n / 64), b64char (n % 64), '=', '=']
  | [] => []

/-- `base64.b64encode(...).decode('utf-8')` on the file's bytes. -/
def b64encode (bytes : List Nat) : String := String.mk (b64encodeChunks bytes)

/-- Python truthiness of an `Optional[str]`: `None` and `""` are falsy. -/
def pyTruthy : Option String → Bool
  | none => false
  | some s => !s.isEmpty

/-- Lines 57–59: `mimetypes.guess_type` result (external collaborator, passed
in as `guess`) with the `if not mime_type: mime_type = 'image/png'` fallback. -/
def guessMimeOrDefault (guess : String → Option String) (p : String) : String :=
  match guess p with
  | some m => if m.isEmpty then "image/png" else m
  | none => "image/png"

/-- `encode_image_file` (lines 47–64).  `fs` is the local filesystem: `none`
means `open(image_path, "rb")` raises an `OSError`, which this function does
not catch (`Except.error` = raised exception carrying Python's message). -/
def encode_image_file (guess : String → Option String) (fs : String → Option (List Nat))
    (image_path : String) : Except String (String × String) :=
  let mime_type := guessMimeOrDefault guess image_path
  match fs image_path with
  | none => Except.error ("[Errno 2] No such file or directory: " ++ image_path)
  | some bytes => Except.ok (b64encode bytes, mime_type)

/-! ## Request Builder + Client Invoker (`query_llm`, lines 66–126) -/

/-- One element of a message's `content` list. -/
inductive ContentBlock where
  | text (text : String)
  | image_url (url : String)
  deriving DecidableEq

/-- One element of `messages`: `{"role": ..., "content": [...]}`. -/
structure ChatMessage where
  role : String
  content : List ContentBlock
  deriving DecidableEq

/-- The `{"type": "text"}` response-format marker of line 117. -/
structure ResponseFormat where
  type : String
  deriving DecidableEq

/-- The fixed `"temperature": 0.7` of line 112. -/
def default_temperature : ℚ := 7 / 10

/-- The keyword-argument dictionary handed to
`client.chat.completions.create(**kwargs)`: `none` in an optional field means
the key is absent from the dict. -/
structure Kwargs where
  model : String
  messages : List ChatMessage
  temperature : Option ℚ
  response_format : Option ResponseFormat
  reasoning_effort : Option String
  deriving DecidableEq

/-- Lines 109–119: the base kwargs, then the `model == "o1"` override that
deletes `temperature` and adds `response_format` / `reasoning_effort`. -/
def build_kwargs (model : String) (messages : List ChatMessage) : Kwargs :=
  let kwargs : Kwargs :=
    { model := model, messages := messages, temperature := some default_temperature,
      response_format := none, reasoning_effort := none }
  if model == "o1" then
    { kwargs with
        response_format := some (⟨"text"⟩ : ResponseFormat),
        reasoning_effort := some "low",
        temperature := none }
  else
    kwargs

/-- Lines 93–107: the `content` list of the single user message: a text block,
replaced by `[text, image_url]` when `image_path` is truthy.  `Except.error`
is the uncaught-within-this-code exception from `encode_image_file`. -/
def message_content (guess : String → Option String) (fs : String → Option (List Nat))
    (prompt : String) (image_path : Option String) : Except String (List ContentBlock) :=
  if pyTruthy image_path then
    match encode_image_file guess fs (image_path.getD "") with
    | Except.error e => Except.error e
    | Except.ok (enc, mime) =>
        Except.ok [ContentBlock.text prompt,
          ContentBlock.image_url ("data:" ++ mime ++ ";base64," ++ enc)]
  else
    Except.ok [ContentBlock.text prompt]

/-- `response.choices[i].message` of the transport's structured response. -/
structure ChoiceMessage where
  content : Option String
  deriving DecidableEq

/-- One element of `response.choices`. -/
structure Choice where
  message : ChoiceMessage
  deriving DecidableEq

/-- The structured response of a successful `chat.completions.create` call. -/
structure ChatResponse where
  choices : List Choice
  deriving DecidableEq

/-- How a call to `query_llm` ends: an exception that escapes it uncaught
(only the `ValueError` of `create_llm_client`), or a normal return. -/
inductive QueryResult where
  | raised (msg : String)
  | returned (r : Option String)
  deriving DecidableEq

/-- `true` exactly on `QueryResult.raised`. -/
def QueryResult.isRaised : QueryResult → Bool
  | .raised _ => true
  | .returned _ => false

/-- Observable behaviour of one `query_llm` call: its result, the lines it
printed to stderr, and the kwargs dictionaries it dispatched through the
transport (the network calls it made). -/
structure QueryTrace where
  result : QueryResult
  stderr : List String
  dispatched : List Kwargs
  deriving DecidableEq

/-- `create_llm_client` (lines 66–70): `ValueError` when `OPENAI_API_KEY` is
falsy (missing or empty), otherwise a client bound to the credential. -/
def create_llm_client (apiKey : Option String) : Except String Unit :=
  if pyTruthy apiKey then Except.ok ()
  else Except.error "OPENAI_API_KEY not found in environment variables"

/-- `query_llm` (lines 72–126).  `transport` is the behaviour of the client in
use (supplied or lazily constructed); `fs`/`guess` are the filesystem and
`mimetypes.guess_type`; `apiKey` is `os.getenv('OPENAI_API_KEY')` in the
resolved environment; `clientProvided` says whether `client` was non-`None`.
Everything from line 88 on sits inside `try ... except Exception`, so every
exception raised there is converted to a `returned none` with a diagnostic. -/
def query_llm (transport : Kwargs → Except String ChatResponse)
    (fs : String → Option (List Nat)) (guess : String → Option String)
    (apiKey : Option String) (clientProvided : Bool)
    (prompt : String) (model : Option String) (image_path : Option String) : QueryTrace :=
  match (if clientProvided then Except.ok () else create_llm_client apiKey) with
  | Except.error e => { result := .raised e, stderr := [], dispatched := [] }
  | Except.ok _ =>
    let model := model.getD "gpt-4o"
    match message_content guess fs prompt image_path with
    | Except.error e =>
        { result := .returned none, stderr := ["Error querying LLM: " ++ e], dispatched := [] }
    | Except.ok content =>
      let messages : List ChatMessage := [{ role := "user", content := content }]
      let kwargs := build_kwargs model messages
      match transport kwargs with
      | Except.error e =>
          { result := .returned none, stderr := ["Error querying LLM: " ++ e],
            dispatched := [kwargs] }
      | Except.ok resp =>
        match resp.choices with
        | [] =>
            { result := .returned none,
              stderr := ["Error querying LLM: list index out of range"], dispatched := [kwargs] }
        | c :: _ =>
            { result := .returned c.message.content, stderr := [], dispatched := [kwargs] }

/-! ## CLI Front-End (`main`, lines 128–139) -/

/-- How a CLI run ends: a normal exit with a code and the lines printed to
stdout, or a crash from an exception `main` never catches. -/
inductive MainOutcome where
  | exited (code : Nat) (stdout : List String)
  | crashed (msg : String)
  deriving DecidableEq

/-- `main` (lines 128–139) after argument parsing: calls `query_llm` with
`client=None`, prints the response and exits 0 when it is truthy, and calls
`sys.exit(1)` otherwise.  (Named `cli_main` because Lean reserves the
top-level name `main` for executable entry points.) -/
def cli_main (transport : Kwargs → Except String ChatResponse)
    (fs : String → Option (List Nat)) (guess : String → Option String)
    (apiKey : Option String) (prompt : String) (model : Option String)
    (image_path : Option String) : MainOutcome :=
  let t := query_llm transport fs guess apiKey false prompt model image_path
  match t.result with
  | .raised m => .crashed m
  | .returned r => if pyTruthy r then .exited 0 [r.getD ""] else .exited 1 []

/-! ## Concrete fixtures shared by witnesses and counterexamples -/

/-- A filesystem with no readable files. -/
def fsEmpty : String → Option (List Nat) := fun _ => none

/-- A filesystem on which every path reads the given bytes. -/
def fsConst (bytes : List Nat) : String → Option (List Nat) := fun _ => some bytes

/-- A `mimetypes.guess_type` that never recognises an extension. -/
def guessNone : String → Option String := fun _ => none

/-- A transport that raises on every request. -/
def transportFail (e : String) : Kwargs → Except String ChatResponse :=
  fun _ => Except.error e

/-- A transport that succeeds on every request with one choice whose message
content is `s`. -/
def transportOk (s : Option String) : Kwargs → Except String ChatResponse :=
  fun _ => Except.ok { choices := [{ message := { content := s } }] }

/-! ## Lemmas about the Config Loader -/

/-- Appending one binding affects a lookup only when the key was absent. -/
theorem lookup_append_single (env : EnvMap) (k a v : String) :
    (env ++ [(a, v)]).lookup k = (env.lookup k).or (if k == a then some v else none) := by
  induction env with
  | nil =>
      simp only [List.nil_append, List.lookup, Option.none_or]
      cases h : k == a <;> simp [h]
  | cons hd tl ih =>
      obtain ⟨b, w⟩ := hd
      simp only [List.cons_append, List.lookup]
      cases h : k == b <;> simp [h, ih]

/-- `load_dotenv` with `override=False`: the pre-existing environment wins,
the file only fills the gaps. -/
theorem lookup_load_dotenv (file env : EnvMap) (k : String) :
    (load_dotenv env file).lookup k = (env.lookup k).or (file.lookup k) := by
  induction file generalizing env with
  | nil => simp [load_dotenv, List.lookup]
  | cons hd tl ih =>
      obtain ⟨a, v⟩ := hd
      show (load_dotenv (setIfAbsent env a v) tl).lookup k = _
      rw [ih]
      simp only [List.lookup]
      unfold setIfAbsent
      cases henv : env.lookup a with
      | some w =>
          simp only [henv, Option.isSome_some, if_true]
          cases h : k == a
          · simp [h]
          · have hk : k = a := by simpa using h
            simp only [h]
            rw [hk, henv]
            rfl
      | none =>
          simp only [henv, Option.isSome_none, Bool.false_eq_true, if_false,
            lookup_append_single]
          cases h : k == a
          · simp [h]
          · have hk : k = a := by simpa using h
            have hke : env.lookup k = none := by rw [hk, henv]
            simp [h, hke]

/-- Claim C1: with `.env.local`, `.env` and `.env.example` all present and
with overlapping keys, `load_environment` resolves every key to the value of
the highest-precedence source that defines it — system environment first,
then `.env.local`, then `.env`, then `.env.example` — and a key set by a
higher-precedence source is never overwritten by a lower-precedence file. -/
theorem env_precedence_resolution (sysEnv envLocalFile envFile envExampleFile : EnvMap)
    (k : String) :
    (load_environment sysEnv ⟨some envLocalFile, some envFile, some envExampleFile⟩).lookup k
      = (sysEnv.lookup k).or
          ((envLocalFile.lookup k).or ((envFile.lookup k).or (envExampleFile.lookup k))) := by
  simp only [load_environment, loadIfExists, lookup_load_dotenv, Option.or_assoc]

/-! ## Lemmas about the Request Builder -/

/-- Both branches of the `model == "o1"` override keep the `messages` list. -/
theorem build_kwargs_messages (model : String) (messages : List ChatMessage) :
    (build_kwargs model messages).messages = messages := by
  unfold build_kwargs
  split <;> rfl

/-- Every kwargs dictionary `query_llm` dispatches was built by
`build_kwargs` from the effective model and the single user message whose
content `message_content` produced. -/
theorem mem_dispatched (transport : Kwargs → Except String ChatResponse)
    (fs : String → Option (List Nat)) (guess : String → Option String)
    (apiKey : Option String) (clientProvided : Bool) (prompt : String)
    (model : Option String) (image_path : Option String) (kw : Kwargs)
    (h : kw ∈ (query_llm transport fs guess apiKey clientProvided prompt model image_path).dispatched) :
    ∃ content, message_content guess fs prompt image_path = Except.ok content
      ∧ kw = build_kwargs (model.getD "gpt-4o") [⟨"user", content⟩] := by
  unfold query_llm at h
  cases hcl : (if clientProvided then Except.ok () else create_llm_client apiKey) with
  | error e => rw [hcl] at h; simp at h
  | ok u =>
      rw [hcl] at h
      simp only [] at h
      cases hmc : message_content guess fs prompt image_path with
      | error e => rw [hmc] at h; simp at h
      | ok content =>
          rw [hmc] at h
          simp only [] at h
          refine ⟨content, rfl, ?_⟩
          cases ht : transport (build_kwargs (model.getD "gpt-4o") [⟨"user", content⟩]) with
          | error e => rw [ht] at h; simpa using h
          | ok resp =>
              rw [ht] at h
              simp only [] at h
              cases hch : resp.choices with
              | nil => rw [hch] at h; simpa using h
              | cons c cs => rw [hch] at h; simpa using h

/-- The client check of lines 85–86 succeeds when a client was supplied or the
credential is truthy. -/
theorem client_check_ok (apiKey : Option String) (clientProvided : Bool)
    (hcp : clientProvided = true ∨ pyTruthy apiKey = true) :
    (if clientProvided then Except.ok () else create_llm_client apiKey) = Except.ok () := by
  rcases hcp with h | h
  · simp [h]
  · cases clientProvided <;> simp [create_llm_client, h]

/-- Evaluation of `query_llm` past the client check and message construction:
the rest of the trace is decided by the transport's answer on the one
dispatched kwargs dictionary. -/
theorem query_llm_eval (transport : Kwargs → Except String ChatResponse)
    (fs : String → Option (List Nat)) (guess : String → Option String)
    (apiKey : Option String) (clientProvided : Bool) (prompt : String)
    (model : Option String) (image_path : Option String) (content : List ContentBlock)
    (hcp : clientProvided = true ∨ pyTruthy apiKey = true)
    (hmc : message_content guess fs prompt image_path = Except.ok content) :
    query_llm transport fs guess apiKey clientProvided prompt model image_path
      = match transport (build_kwargs (model.getD "gpt-4o") [⟨"user", content⟩]) with
        | Except.error e =>
            { result := .returned none, stderr := ["Error querying LLM: " ++ e],
              dispatched := [build_kwargs (model.getD "gpt-4o") [⟨"user", content⟩]] }
        | Except.ok resp =>
          match resp.choices with
          | [] =>
              { result := .returned none,
                stderr := ["Error querying LLM: list index out of range"],
                dispatched := [build_kwargs (model.getD "gpt-4o") [⟨"user", content⟩]] }
          | c :: _ =>
              { result := .returned c.message.content, stderr := [],
                dispatched := [build_kwargs (model.getD "gpt-4o") [⟨"user", content⟩]] } := by
  unfold query_llm
  rw [client_check_ok apiKey clientProvided hcp]
  simp only []
  rw [hmc]

/-- Evaluation of `query_llm` when the message construction raises (the only
way: `encode_image_file` raised): the `except` of line 124 absorbs it. -/
theorem query_llm_content_error (transport : Kwargs → Except String ChatResponse)
    (fs : String → Option (List Nat)) (guess : String → Option String)
    (apiKey : Option String) (clientProvided : Bool) (prompt : String)
    (model : Option String) (image_path : Option String) (e : String)
    (hcp : clientProvided = true ∨ pyTruthy apiKey = true)
    (hmc : message_content guess fs prompt image_path = Except.error e) :
    query_llm transport fs guess apiKey clientProvided prompt model image_path
      = { result := .returned none, stderr := ["Error querying LLM: " ++ e],
          dispatched := [] } := by
  unfold query_llm
  rw [client_check_ok apiKey clientProvided hcp]
  simp only []
  rw [hmc]

/-- Claim C2: whenever `query_llm` is called with the reasoning-model
identifier `"o1"`, the dispatched payload has no `temperature` key, has
`reasoning_effort = "low"`, and has `response_format = {"type": "text"}`. -/
theorem o1_payload_shape (transport : Kwargs → Except String ChatResponse)
    (fs : String → Option (List Nat)) (guess : String → Option String)
    (apiKey : Option String) (clientProvided : Bool) (prompt : String)
    (image_path : Option String) (kw : Kwargs)
    (h : kw ∈ (query_llm transport fs guess apiKey clientProvided prompt
        (some "o1") image_path).dispatched) :
    kw.temperature = none ∧ kw.reasoning_effort = some "low"
      ∧ kw.response_format = some ⟨"text"⟩ := by
  obtain ⟨content, -, rfl⟩ := mem_dispatched transport fs guess apiKey clientProvided prompt
    (some "o1") image_path kw h
  simp [build_kwargs]

/-- Spot check of `o1_payload_shape` on a concrete call through a transport
that answers, with a supplied client. -/
theorem o1_payload_shape_check :
    (build_kwargs "o1" [⟨"user", [ContentBlock.text "Hello"]⟩]).temperature = none
    ∧ (build_kwargs "o1" [⟨"user", [ContentBlock.text "Hello"]⟩]).reasoning_effort = some "low"
    ∧ (build_kwargs "o1" [⟨"user", [ContentBlock.text "Hello"]⟩]).response_format
        = some ⟨"text"⟩ :=
  o1_payload_shape (transportOk (some "Hi")) fsEmpty guessNone (some "k") true "Hello" none
    (build_kwargs "o1" [⟨"user", [ContentBlock.text "Hello"]⟩]) (List.mem_singleton_self _)

/-- Claim C3: with any non-reasoning model identifier the dispatched payload
keeps `temperature = 0.7` and carries neither `reasoning_effort` nor
`response_format`; an unspecified model means the baseline `"gpt-4o"`. -/
theorem non_reasoning_payload_shape (transport : Kwargs → Except String ChatResponse)
    (fs : String → Option (List Nat)) (guess : String → Option String)
    (apiKey : Option String) (clientProvided : Bool) (prompt : String)
    (image_path : Option String) (model : Option String) (kw : Kwargs)
    (hm : model.getD "gpt-4o" ≠ "o1")
    (h : kw ∈ (query_llm transport fs guess apiKey clientProvided prompt
        model image_path).dispatched) :
    kw.temperature = some default_temperature ∧ kw.response_format = none
      ∧ kw.reasoning_effort = none ∧ kw.model = model.getD "gpt-4o"
      ∧ (model = none → kw.model = "gpt-4o") := by
  obtain ⟨content, -, rfl⟩ := mem_dispatched transport fs guess apiKey clientProvided prompt
    model image_path kw h
  refine ⟨?_, ?_, ?_, ?_, ?_⟩ <;> try simp [build_kwargs, hm]
  rintro rfl
  rfl

/-- Spot check of `non_reasoning_payload_shape` with no model specified: the
payload uses `"gpt-4o"` and the plain chat shape. -/
theorem non_reasoning_payload_shape_check :
    (build_kwargs "gpt-4o" [⟨"user", [ContentBlock.text "Hello"]⟩]).temperature
        = some default_temperature
    ∧ (build_kwargs "gpt-4o" [⟨"user", [ContentBlock.text "Hello"]⟩]).response_format = none
    ∧ (build_kwargs "gpt-4o" [⟨"user", [ContentBlock.text "Hello"]⟩]).reasoning_effort = none
    ∧ (build_kwargs "gpt-4o" [⟨"user", [ContentBlock.text "Hello"]⟩]).model
        = (none : Option String).getD "gpt-4o"
    ∧ ((none : Option String) = none
        → (build_kwargs "gpt-4o" [⟨"user", [ContentBlock.text "Hello"]⟩]).model = "gpt-4o") :=
  non_reasoning_payload_shape (transportOk (some "Hi")) fsEmpty guessNone (some "k") true
    "Hello" none none (build_kwargs "gpt-4o" [⟨"user", [ContentBlock.text "Hello"]⟩])
    (by decide) (List.mem_singleton_self _)

/-- Claim C4: with a (truthy) attachment path whose file reads successfully,
the dispatched message content is exactly the two-element sequence text block
then image block, the image URI is `data:<mime>;base64,<payload>` with the
payload the standard base64 encoding of the file's bytes, and the mime type
falls back to `image/png` when inference yields nothing. -/
theorem attachment_message_shape (transport : Kwargs → Except String ChatResponse)
    (fs : String → Option (List Nat)) (guess : String → Option String)
    (apiKey : Option String) (clientProvided : Bool) (prompt : String)
    (model : Option String) (p : String) (bytes : List Nat) (kw : Kwargs)
    (hp : p.isEmpty = false) (hfs : fs p = some bytes)
    (h : kw ∈ (query_llm transport fs guess apiKey clientProvided prompt
        model (some p)).dispatched) :
    kw.messages = [⟨"user",
      [ContentBlock.text prompt,
       ContentBlock.image_url
         ("data:" ++ guessMimeOrDefault guess p ++ ";base64," ++ b64encode bytes)]⟩]
    ∧ (guess p = none → guessMimeOrDefault guess p = "image/png") := by
  obtain ⟨content, hc, rfl⟩ := mem_dispatched transport fs guess apiKey clientProvided prompt
    model (some p) kw h
  have hmc : message_content guess fs prompt (some p)
      = Except.ok [ContentBlock.text prompt,
          ContentBlock.image_url
            ("data:" ++ guessMimeOrDefault guess p ++ ";base64," ++ b64encode bytes)] := by
    simp [message_content, pyTruthy, hp, encode_image_file, hfs]
  rw [hmc] at hc
  injection hc with hcontent
  subst hcontent
  refine ⟨?_, ?_⟩
  · rw [build_kwargs_messages]
  · intro hg
    simp [guessMimeOrDefault, hg]

/-- Spot check of `attachment_message_shape` on bytes `[1, 2, 3]` with no
recognised extension: the data URI is literally
`data:image/png;base64,AQID`. -/
theorem attachment_message_shape_check :
    (build_kwargs "gpt-4o" [⟨"user",
        [ContentBlock.text "describe",
         ContentBlock.image_url
           ("data:" ++ guessMimeOrDefault guessNone "img.bin" ++ ";base64,"
             ++ b64encode [1, 2, 3])]⟩]).messages
      = [⟨"user",
          [ContentBlock.text "describe",
           ContentBlock.image_url
             ("data:" ++ guessMimeOrDefault guessNone "img.bin" ++ ";base64,"
               ++ b64encode [1, 2, 3])]⟩]
    ∧ (guessNone "img.bin" = none → guessMimeOrDefault guessNone "img.bin" = "image/png")
    ∧ ("data:" ++ guessMimeOrDefault guessNone "img.bin" ++ ";base64," ++ b64encode [1, 2, 3])
        = "data:image/png;base64,AQID" := by
  have H := attachment_message_shape (transportOk (some "ok")) (fsConst [1, 2, 3]) guessNone
    (some "k") true "describe" none "img.bin" [1, 2, 3]
    (build_kwargs "gpt-4o" [⟨"user",
      [ContentBlock.text "describe",
       ContentBlock.image_url
         ("data:" ++ guessMimeOrDefault guessNone "img.bin" ++ ";base64,"
           ++ b64encode [1, 2, 3])]⟩])
    rfl rfl (List.mem_singleton_self _)
  exact ⟨H.1, H.2, by decide⟩

/-- Evaluation of `query_llm` when no client is supplied and the credential is
falsy: `create_llm_client`'s `ValueError` escapes before the `try` block. -/
theorem query_llm_config_error (transport : Kwargs → Except String ChatResponse)
    (fs : String → Option (List Nat)) (guess : String → Option String)
    (apiKey : Option String) (prompt : String) (model : Option String)
    (image_path : Option String) (hk : pyTruthy apiKey = false) :
    query_llm transport fs guess apiKey false prompt model image_path
      = { result := QueryResult.raised "OPENAI_API_KEY not found in environment variables",
          stderr := [], dispatched := [] } := by
  unfold query_llm
  simp [create_llm_client, hk]

/-- Claim C5: a transport-level failure is caught once at the `query_llm`
boundary: the call reports one diagnostic line to stderr and returns `None`
instead of propagating, and the CLI then exits with code 1. -/
theorem transport_failure_absorbed (transport : Kwargs → Except String ChatResponse)
    (fs : String → Option (List Nat)) (guess : String → Option String)
    (apiKey : Option String) (prompt : String) (model : Option String)
    (image_path : Option String) (e : String)
    (hfail : ∀ kw, transport kw = Except.error e)
    (hreach : (query_llm transport fs guess apiKey false prompt model image_path).dispatched ≠ []) :
    (query_llm transport fs guess apiKey false prompt model image_path).result
        = QueryResult.returned none
    ∧ (query_llm transport fs guess apiKey false prompt model image_path).stderr
        = ["Error querying LLM: " ++ e]
    ∧ cli_main transport fs guess apiKey prompt model image_path = MainOutcome.exited 1 [] := by
  cases hk : pyTruthy apiKey with
  | false =>
      exact absurd
        (by rw [query_llm_config_error transport fs guess apiKey prompt model image_path hk])
        hreach
  | true =>
      cases hmc : message_content guess fs prompt image_path with
      | error e2 =>
          exact absurd
            (by rw [query_llm_content_error transport fs guess apiKey false prompt model
              image_path e2 (Or.inr hk) hmc])
            hreach
      | ok content =>
          have heval := query_llm_eval transport fs guess apiKey false prompt model
            image_path content (Or.inr hk) hmc
          rw [hfail] at heval
          simp only [] at heval
          refine ⟨?_, ?_, ?_⟩
          · rw [heval]
          · rw [heval]
          · unfold cli_main
            rw [heval]
            simp [pyTruthy]

/-- Spot check of `transport_failure_absorbed` on a transport that always
raises `"boom"`. -/
theorem transport_failure_absorbed_check :
    (query_llm (transportFail "boom") fsEmpty guessNone (some "k") false "Hello" none none).result
        = QueryResult.returned none
    ∧ (query_llm (transportFail "boom") fsEmpty guessNone (some "k") false "Hello" none
        none).stderr = ["Error querying LLM: " ++ "boom"]
    ∧ cli_main (transportFail "boom") fsEmpty guessNone (some "k") "Hello" none none
        = MainOutcome.exited 1 [] :=
  transport_failure_absorbed (transportFail "boom") fsEmpty guessNone (some "k") "Hello" none
    none "boom" (fun _ => rfl) (List.cons_ne_nil _ _)

/-- Claim C6: with no client supplied and a falsy `OPENAI_API_KEY`, the
`ValueError` of `create_llm_client` escapes `query_llm` uncaught, nothing is
dispatched (no network call), and the outcome does not depend on the
transport at all. -/
theorem missing_credential_raises (transport : Kwargs → Except String ChatResponse)
    (fs : String → Option (List Nat)) (guess : String → Option String)
    (apiKey : Option String) (prompt : String) (model : Option String)
    (image_path : Option String) (hk : pyTruthy apiKey = false) :
    query_llm transport fs guess apiKey false prompt model image_path
      = { result := QueryResult.raised "OPENAI_API_KEY not found in environment variables",
          stderr := [], dispatched := [] } :=
  query_llm_config_error transport fs guess apiKey prompt model image_path hk

/-- Spot check of `missing_credential_raises` with a missing credential. -/
theorem missing_credential_raises_check :
    query_llm (transportOk (some "Hi")) fsEmpty guessNone none false "Hello" none none
      = { result := QueryResult.raised "OPENAI_API_KEY not found in environment variables",
          stderr := [], dispatched := [] } :=
  missing_credential_raises (transportOk (some "Hi")) fsEmpty guessNone none "Hello" none
    none rfl

/-- Counterexample to claim C7: `encode_image_file` is called inside the
`try` block of line 88, so on a missing attachment file the `OSError` is
caught by `except Exception` at line 124 and converted to the
absence-of-result marker — it does not propagate out of `query_llm`. -/
theorem io_error_not_propagated :
    query_llm (transportOk (some "reply")) fsEmpty guessNone (some "k") true "describe" none
        (some "missing.png")
      = { result := QueryResult.returned none,
          stderr := ["Error querying LLM: [Errno 2] No such file or directory: missing.png"],
          dispatched := [] } := rfl

/-- Claim C7 (amended): on an attachment path that does not exist or is
unreadable, the I/O error raised by the Media Encoder is caught by
`query_llm`'s failure-absorption boundary like a transport error: a
diagnostic goes to stderr, the absence-of-result marker (`None`) is
returned, and no request is dispatched. -/
theorem io_error_absorbed (transport : Kwargs → Except String ChatResponse)
    (fs : String → Option (List Nat)) (guess : String → Option String)
    (apiKey : Option String) (clientProvided : Bool) (prompt : String)
    (model : Option String) (p : String)
    (hcp : clientProvided = true ∨ pyTruthy apiKey = true)
    (hp : p.isEmpty = false) (hfs : fs p = none) :
    query_llm transport fs guess apiKey clientProvided prompt model (some p)
      = { result := QueryResult.returned none,
          stderr := ["Error querying LLM: [Errno 2] No such file or directory: " ++ p],
          dispatched := [] } := by
  apply query_llm_content_error _ _ _ _ _ _ _ _ _ hcp
  simp only [message_content, pyTruthy, hp, Bool.not_false, if_true, Option.getD_some,
    encode_image_file, hfs]
  rfl

/-- Spot check of `io_error_absorbed` on a filesystem with no readable
file. -/
theorem io_error_absorbed_check :
    query_llm (transportFail "never") fsEmpty guessNone (some "k") true "describe" none
        (some "gone.png")
      = { result := QueryResult.returned none,
          stderr := ["Error querying LLM: [Errno 2] No such file or directory: " ++ "gone.png"],
          dispatched := [] } :=
  io_error_absorbed (transportFail "never") fsEmpty guessNone (some "k") true "describe" none
    "gone.png" (Or.inl rfl) rfl rfl

/-- Counterexample to claim C8: on a successful transport whose message text
is the empty string, `main`'s `if response:` is false, so the CLI prints
nothing and exits 1 — it does not print the empty response and exit 0. -/
theorem empty_response_exits_one :
    cli_main (transportOk (some "")) fsEmpty guessNone (some "k") "Hello" none none
        = MainOutcome.exited 1 []
    ∧ cli_main (transportOk (some "")) fsEmpty guessNone (some "k") "Hello" none none
        ≠ MainOutcome.exited 0 [""] :=
  ⟨rfl, by decide⟩

/-- Claim C8 (amended): a present, truthy (non-empty) result string is printed
to stdout with exit code 0; an absent result or an empty-string result yields
exit code 1 with nothing printed (`if response:` does not distinguish empty
success from absence); the end-to-end run with prompt `"Hello"`, no model
override, no attachment and a transport answering `"Hi there"` prints exactly
`"Hi there"` and exits 0. -/
theorem cli_exit_behavior (transport : Kwargs → Except String ChatResponse)
    (fs : String → Option (List Nat)) (guess : String → Option String)
    (apiKey : Option String) (prompt : String) (model : Option String)
    (image_path : Option String) (r : Option String)
    (h : (query_llm transport fs guess apiKey false prompt model image_path).result
        = QueryResult.returned r) :
    cli_main transport fs guess apiKey prompt model image_path
      = (if pyTruthy r then MainOutcome.exited 0 [r.getD ""] else MainOutcome.exited 1 [])
    ∧ cli_main (transportOk (some "Hi there")) fsEmpty guessNone (some "k") "Hello" none none
      = MainOutcome.exited 0 ["Hi there"] := by
  constructor
  · unfold cli_main
    simp only []
    rw [h]
  · rfl

/-- Spot check of `cli_exit_behavior` on the end-to-end `"Hello"` run. -/
theorem cli_exit_behavior_check :
    cli_main (transportOk (some "Hi there")) fsEmpty guessNone (some "k") "Hello" none none
      = (if pyTruthy (some "Hi there") then MainOutcome.exited 0 [(some "Hi there").getD ""]
         else MainOutcome.exited 1 [])
    ∧ cli_main (transportOk (some "Hi there")) fsEmpty guessNone (some "k") "Hello" none none
      = MainOutcome.exited 0 ["Hi there"] :=
  cli_exit_behavior (transportOk (some "Hi there")) fsEmpty guessNone (some "k") "Hello" none
    none (some "Hi there") rfl

/-- Counterexample to claim C9: on the line `" FOO =1"` the code's `.strip()`
makes the extracted key the whitespace-stripped `"FOO"`, not the raw text
`" FOO "` standing before the first `'='`. -/
theorem key_extraction_strips :
    extract_env_keys [" FOO =1"] = ["FOO"]
    ∧ beforeFirstEq " FOO =1" = " FOO "
    ∧ extract_env_keys [" FOO =1"] ≠ [" FOO "] := by
  refine ⟨rfl, rfl, ?_⟩
  decide

/-- Claim C9 (amended): the diagnostic key extraction is a total function
(it cannot raise) whose result is exactly, for every line that contains
`'='` and does not start with `'#'`, the whitespace-stripped text before the
line's first `'='`; malformed (no `'='`) and comment lines are ignored. -/
theorem extract_env_keys_spec (lines : List String) :
    extract_env_keys lines
      = (lines.filter (fun l => l.toList.contains '=' && !startsWithHash l)).map
          (fun l => pyStrip (beforeFirstEq l)) := by
  induction lines with
  | nil => rfl
  | cons l ls ih =>
      show (if l.toList.contains '=' && !startsWithHash l then
              pyStrip (beforeFirstEq l) :: extract_env_keys ls
            else extract_env_keys ls) = _
      simp only [List.filter_cons]
      by_cases h : (l.toList.contains '=' && !startsWithHash l) = true
      · rw [if_pos h, if_pos h, List.map_cons, ih]
      · rw [if_neg h, if_neg h, ih]

/-- Claim C10: `query_llm` does not validate the prompt: for every prompt,
the empty string included, it raises nothing at its interface and dispatches
the one standard payload whose text content block carries that prompt
verbatim. -/
theorem prompt_not_validated (transport : Kwargs → Except String ChatResponse)
    (fs : String → Option (List Nat)) (guess : String → Option String)
    (apiKey : Option String) (clientProvided : Bool) (model : Option String)
    (prompt : String)
    (hcp : clientProvided = true ∨ pyTruthy apiKey = true) :
    (query_llm transport fs guess apiKey clientProvided prompt model none).result.isRaised
        = false
    ∧ (query_llm transport fs guess apiKey clientProvided prompt model none).dispatched
        = [build_kwargs (model.getD "gpt-4o") [⟨"user", [ContentBlock.text prompt]⟩]] := by
  have hmc : message_content guess fs prompt none = Except.ok [ContentBlock.text prompt] := by
    simp [message_content, pyTruthy]
  have heval := query_llm_eval transport fs guess apiKey clientProvided prompt model none
    [ContentBlock.text prompt] hcp hmc
  rw [heval]
  cases ht : transport (build_kwargs (model.getD "gpt-4o")
      [⟨"user", [ContentBlock.text prompt]⟩]) with
  | error e => exact ⟨rfl, rfl⟩
  | ok resp =>
      simp only []
      cases hch : resp.choices with
      | nil => exact ⟨rfl, rfl⟩
      | cons c cs => exact ⟨rfl, rfl⟩

/-- Spot check of `prompt_not_validated` at the empty prompt: the payload is
built and dispatched with an empty text block and nothing is raised. -/
theorem prompt_not_validated_check :
    (query_llm (transportOk (some "Hi")) fsEmpty guessNone (some "k") true "" none
        none).result.isRaised = false
    ∧ (query_llm (transportOk (some "Hi")) fsEmpty guessNone (some "k") true "" none
        none).dispatched
        = [build_kwargs ((none : Option String).getD "gpt-4o")
            [⟨"user", [ContentBlock.text ""]⟩]] :=
  prompt_not_validated (transportOk (some "Hi")) fsEmpty guessNone (some "k") true none ""
    (Or.inl rfl)
